import Mathlib

/-!
Shallow embedding of `frontend_tester.py` (class `FrontendAutoTester`), a batch
test harness that compiles each test case with an external compiler, links the
result with a runtime library, executes it under an external interpreter while
capturing output, compares the capture with the expected answer, and logs one
verdict line per case.

The filesystem is modelled as a finite map from path strings to content
strings.  External subprocesses (compiler, linker, interpreter) are modelled
as oracle functions supplied in a `Toolchain`; the `echo` shell utility used
for exit-code echoing is modelled by its standard behaviour (print arguments
and a newline).  Fallible Python operations (opening a missing file for
reading, `max` of an empty sequence) return `Except`.
-/

namespace FrontendTester

/-- Filesystem: association list from path to file content; the first binding
for a path wins, so `write` prepends. -/
def FS := List (String × String)

def FS.read (fs : FS) (p : String) : Option String :=
  match fs with
  | [] => none
  | (q, c) :: rest => if q = p then some c else FS.read rest p

def FS.write (fs : FS) (p : String) (c : String) : FS :=
  (p, c) :: fs

/-- Truth of `os.path.exists` for a file path in the model. -/
def FS.existsF (fs : FS) (p : String) : Bool :=
  (fs.read p).isSome

/-- Append to a file, creating it when absent (the effect of writing through a
descriptor opened in append mode). -/
def FS.append (fs : FS) (p : String) (s : String) : FS :=
  fs.write p (((fs.read p).getD "") ++ s)

/-- Python errors the embedding distinguishes. -/
inductive PyErr where
  | fileNotFound
  | valueError
  deriving DecidableEq, Repr

/-- The fields of `caseloader.TestCase` that `FrontendAutoTester` consumes. -/
structure TestCase where
  sy_path : String
  in_path : Option String
  std_out_path : String
  ll_name : String
  bc_name : String
  gen_out_name : String
  deriving DecidableEq, Repr

/-- External toolchain: `spawn` is the filesystem effect of
`subprocess.run(cmd.split(), stdout=DEVNULL, stderr=DEVNULL)` (used for the
compiler and the linker); `lli` maps an interpreter command and the optional
standard-input content to the produced standard output and the return code. -/
structure Toolchain where
  spawn : String → FS → FS
  lli : String → Option String → String × Int

/-- Observable subprocess/comparison invocations, recorded per case. -/
inductive Event where
  | spawnProc (cmd : String)
  | interpProc (cmd : String) (stdinFile : Option String) (stderrDevnull : Bool)
  | cmpFiles (f1 f2 : String)
  deriving DecidableEq, Repr

def Event.isInterp : Event → Bool
  | .interpProc _ _ _ => true
  | _ => false

def Event.isCmp : Event → Bool
  | .cmpFiles _ _ => true
  | _ => false

/-- Verdict of one test case (`status` in `FrontendAutoTester.run`). -/
inductive Verdict where
  | CompilationError
  | Accepted
  | WrongAnswer
  deriving DecidableEq, Repr

/-- The exact status strings written by `FrontendAutoTester.run`
(lines 74, 77, 78 of the source; "Accecpted" is the source's spelling). -/
def verdictLabel : Verdict → String
  | .CompilationError => "Compilation Error"
  | .Accepted => "Accecpted"
  | .WrongAnswer => "Wrong Answer"

/-- Python's `str.ljust(width, ' ')`. -/
def ljust (s : String) (w : Nat) : String :=
  s ++ String.mk (List.replicate (w - s.length) ' ')

/-- Python's `max` over a list of naturals: `none` models the `ValueError`
raised on an empty sequence. -/
def pyMax : List Nat → Option Nat
  | [] => none
  | x :: xs =>
    match pyMax xs with
    | none => some x
    | some m => some (if x < m then m else x)

/-- Construction timestamp at the resolution `strftime("%m%d-%H%M%S")`
observes: month, day, hour, minute, second. -/
structure Timestamp where
  mon : Nat
  day : Nat
  hour : Nat
  minute : Nat
  sec : Nat
  deriving DecidableEq, Repr

def Timestamp.valid (t : Timestamp) : Prop :=
  1 ≤ t.mon ∧ t.mon ≤ 12 ∧ 1 ≤ t.day ∧ t.day ≤ 31 ∧
  t.hour ≤ 23 ∧ t.minute ≤ 59 ∧ t.sec ≤ 59

/-- Zero-padded two-digit decimal rendering used by `strftime` for each of
`%m %d %H %M %S` (faithful for the field ranges a datetime can hold). -/
def pad2 (n : Nat) : String :=
  if n < 10 then "0" ++ toString n else toString n

/-- The `strftime(r"%m%d-%H%M%S")` value at a given timestamp. -/
def stamp (t : Timestamp) : String :=
  pad2 t.mon ++ pad2 t.day ++ "-" ++ pad2 t.hour ++ pad2 t.minute ++ pad2 t.sec

/-- Name of the run directory: `'testgen-' + datetime.now().strftime(...)`. -/
def runDirName (t : Timestamp) : String :=
  "testgen-" ++ stamp t

/-- The attribute state of a constructed `FrontendAutoTester`. -/
structure Tester where
  java_path : String
  compiler_path : String
  testcases : List TestCase
  root_dir : String
  ir_dir : String
  out_dir : String
  res_path : String
  max_path_width : Nat
  deriving Repr

/-- Embeds `FrontendAutoTester.__init__`.  Returns the constructed state and
the list of directories `os.makedirs` created, in creation order; the
attribute assignments (including `max(...)`, which raises on an empty
testcase list) happen before any `os.makedirs` call, exactly as in the
source, so an error leaves the created-directory list empty. -/
def initTester (compiler_path : String) (testcases : List TestCase)
    (java_path : String) (gen_dir : String) (now : Timestamp) :
    Except PyErr Tester × List String :=
  let root_dir := gen_dir ++ "/" ++ runDirName now
  let ir_dir := root_dir ++ "/" ++ "ir"
  let out_dir := root_dir ++ "/" ++ "out"
  let res_path := root_dir ++ "/" ++ "result.log"
  match pyMax (testcases.map (fun tc => tc.sy_path.length)) with
  | none => (.error .valueError, [])
  | some w =>
    (.ok { java_path := java_path, compiler_path := compiler_path,
           testcases := testcases, root_dir := root_dir, ir_dir := ir_dir,
           out_dir := out_dir, res_path := res_path, max_path_width := w },
     [root_dir, ir_dir, out_dir])

/-- Target path of the compiler's `.ll` artifact:
`f"{self.ir_dir}/{testcase.ll_name}"`. -/
def llPath (st : Tester) (tcase : TestCase) : String :=
  st.ir_dir ++ "/" ++ tcase.ll_name

/-- Target path of the linker's `.bc` artifact:
`f"{self.ir_dir}/{testcase.bc_name}"`. -/
def bcPath (st : Tester) (tcase : TestCase) : String :=
  st.ir_dir ++ "/" ++ tcase.bc_name

/-- Capture-file path for a case: `self.out_dir/testcase.gen_out_name`. -/
def outPath (st : Tester) (tcase : TestCase) : String :=
  st.out_dir ++ "/" ++ tcase.gen_out_name

/-- The compiler command line of `gen_ir` (source lines 105-110). -/
def cmdCompile (st : Tester) (tcase : TestCase) : String :=
  st.java_path ++ " -jar " ++ st.compiler_path ++ " -s " ++ tcase.sy_path
    ++ " -emit-llvm " ++ llPath st tcase

/-- The linker command line of `gen_ir` (source line 123). -/
def cmdLink (st : Tester) (tcase : TestCase) : String :=
  "llvm-link " ++ llPath st tcase ++ " sylib.ll -o " ++ bcPath st tcase

/-- Embeds `FrontendAutoTester.gen_ir`: run the compiler, check the `.ll`
artifact exists, run the linker, check the `.bc` artifact exists; `none`
models the Python `None` returned when either artifact is missing. -/
def gen_ir (env : Toolchain) (st : Tester) (tcase : TestCase) (fs : FS) :
    Option String × FS × List Event :=
  let fs1 := env.spawn (cmdCompile st tcase) fs
  if fs1.existsF (llPath st tcase) = false then
    (none, fs1, [.spawnProc (cmdCompile st tcase)])
  else
    let fs2 := env.spawn (cmdLink st tcase) fs1
    if fs2.existsF (bcPath st tcase) = false then
      (none, fs2, [.spawnProc (cmdCompile st tcase), .spawnProc (cmdLink st tcase)])
    else
      (some (bcPath st tcase), fs2,
       [.spawnProc (cmdCompile st tcase), .spawnProc (cmdLink st tcase)])

/-- The exit-code echoing step of `run_ir` (source lines 166-172): when
enabled, `echo` a bare newline first if the capture file is non-empty
(`os.path.getsize(out_path) > 0`), then `echo` the decimal return code with
its trailing newline. -/
def echoStep (echo_ret : Bool) (ret : Int) (out_path : String) (fs : FS) : FS :=
  if echo_ret then
    let fs1 :=
      if 0 < ((fs.read out_path).getD "").length then fs.append out_path "\n"
      else fs
    fs1.append out_path (toString ret ++ "\n")
  else
    fs

/-- Embeds `FrontendAutoTester.run_ir`: open the capture file in append mode
(`'a+'`, creating it empty when absent, never truncating), run the
interpreter with stdout appended to it and stderr discarded — with the input
file as stdin when `in_path` is supplied, with no stdin otherwise — then
perform the exit-code echoing step.  Opening a missing input file raises. -/
def run_ir (env : Toolchain) (bc_path out_path : String)
    (in_path : Option String) (echo_ret : Bool) (fs : FS) :
    Except PyErr (FS × List Event) :=
  let cmd_lli := "lli " ++ bc_path
  let fs0 := if fs.existsF out_path then fs else fs.write out_path ""
  match in_path with
  | none =>
    let res := env.lli cmd_lli none
    let fs1 := fs0.append out_path res.1
    .ok (echoStep echo_ret res.2 out_path fs1, [.interpProc cmd_lli none true])
  | some p =>
    match fs0.read p with
    | none => .error .fileNotFound
    | some inContent =>
      let res := env.lli cmd_lli (some inContent)
      let fs1 := fs0.append out_path res.1
      .ok (echoStep echo_ret res.2 out_path fs1,
           [.interpProc cmd_lli (some p) true])

/-- Embeds `FrontendAutoTester.match`: `filecmp.cmp(file1, file2,
shallow=False)` — exact content comparison; a missing file raises. -/
def matchFiles (fs : FS) (file1 file2 : String) : Except PyErr Bool :=
  match fs.read file1, fs.read file2 with
  | some c1, some c2 => .ok (c1 = c2)
  | _, _ => .error .fileNotFound

/-- Per-case record produced by the loop body of `run`. -/
structure CaseResult where
  tcase : TestCase
  verdict : Verdict
  events : List Event
  deriving Repr

/-- The loop body of `FrontendAutoTester.run` for one test case: `gen_ir`,
short-circuiting to `Compilation Error` when it returns `None`, otherwise
`run_ir` then `match` deciding Accepted/Wrong Answer. -/
def processCase (env : Toolchain) (st : Tester) (echo_ret : Bool)
    (tcase : TestCase) (fs : FS) : Except PyErr (FS × CaseResult) :=
  match gen_ir env st tcase fs with
  | (none, fs1, ev1) =>
    .ok (fs1, { tcase := tcase, verdict := .CompilationError, events := ev1 })
  | (some bc_path, fs1, ev1) =>
    match run_ir env bc_path (outPath st tcase) tcase.in_path echo_ret fs1 with
    | .error e => .error e
    | .ok (fs2, ev2) =>
      match matchFiles fs2 (outPath st tcase) tcase.std_out_path with
      | .error e => .error e
      | .ok b =>
        .ok (fs2,
          { tcase := tcase,
            verdict := if b then .Accepted else .WrongAnswer,
            events := ev1 ++ ev2
              ++ [.cmpFiles (outPath st tcase) tcase.std_out_path] })

/-- The log line `run` writes for one case (source lines 80-83): the source
path left-justified to the batch maximum width, a space, a tab, the status
string, a newline. -/
def logLine (st : Tester) (tcase : TestCase) (v : Verdict) : String :=
  ljust tcase.sy_path st.max_path_width ++ " \t" ++ verdictLabel v ++ "\n"

/-- The per-case loop of `run`: process each case in order, appending its log
line to the result file right after its verdict resolves. -/
def runLoop (env : Toolchain) (st : Tester) (echo_ret : Bool) :
    List TestCase → FS → Except PyErr (FS × List CaseResult)
  | [], fs => .ok (fs, [])
  | tcase :: rest, fs =>
    match processCase env st echo_ret tcase fs with
    | .error e => .error e
    | .ok (fs1, r) =>
      match runLoop env st echo_ret rest
          (fs1.append st.res_path (logLine st tcase r.verdict)) with
      | .error e => .error e
      | .ok (fs2, rs) => .ok (fs2, r :: rs)

/-- Embeds `FrontendAutoTester.run`: open the result log with `'w+'`
(truncating it), then loop over the test cases in the order supplied. -/
def runAll (env : Toolchain) (st : Tester) (echo_ret : Bool) (fs : FS) :
    Except PyErr (FS × List CaseResult) :=
  runLoop env st echo_ret st.testcases (fs.write st.res_path "")

/-- Concatenation of a list of strings, in order. -/
def strConcat : List String → String
  | [] => ""
  | s :: rest => s ++ strConcat rest

/-- Decimal value of a digit character (garbage, but consistently so, on
non-digits); used to decode run-directory names. -/
def dv (c : Char) : Nat := (c.toNat - 48) % 10

/-- Numeric decoding of a string through its digit characters; distinct
decodings witness distinct strings. -/
def nameCode (s : String) : Nat :=
  s.data.foldl (fun x c => x * 10 + dv c) 0

/-- Test-case fixture: no input file. -/
def tcA : TestCase :=
  { sy_path := "a.sy", in_path := none, std_out_path := "a_std.out",
    ll_name := "a.ll", bc_name := "a.bc", gen_out_name := "a.out" }

/-- Test-case fixture: with an input file. -/
def tcB : TestCase :=
  { sy_path := "bb/b.sy", in_path := some "b.in", std_out_path := "b_std.out",
    ll_name := "b.ll", bc_name := "b.bc", gen_out_name := "b.out" }

/-- Toolchain fixture whose subprocesses write no files and whose
interpreter produces no output, exiting with code 0. -/
def envNull : Toolchain :=
  { spawn := fun _ fs => fs, lli := fun _ _ => ("", 0) }

/-- Toolchain fixture: interpreter prints "hi" and exits 0; spawns write
nothing. -/
def envHi : Toolchain :=
  { spawn := fun _ fs => fs, lli := fun _ _ => ("hi", 0) }

/-- Toolchain fixture: interpreter prints nothing and exits 1; spawns write
nothing. -/
def envExit1 : Toolchain :=
  { spawn := fun _ fs => fs, lli := fun _ _ => ("", 1) }

/-- Tester-state fixture over the single test case `tcA`, as
`initTester "cbias.jar" [tcA] "java" "gen"` builds it at timestamp
0101-000000. -/
def stA : Tester :=
  { java_path := "java", compiler_path := "cbias.jar", testcases := [tcA],
    root_dir := "gen/testgen-0101-000000",
    ir_dir := "gen/testgen-0101-000000/ir",
    out_dir := "gen/testgen-0101-000000/out",
    res_path := "gen/testgen-0101-000000/result.log",
    max_path_width := 4 }

/-- Toolchain fixture that always creates `tcA`'s `.ll` artifact (under
`stA`) but never the `.bc` artifact, and echoes nothing. -/
def envLinkFail : Toolchain :=
  { spawn := fun _ fs => fs.write (llPath stA tcA) "ir-text",
    lli := fun _ _ => ("", 0) }

/-- Toolchain fixture that creates both of `tcA`'s artifacts (under `stA`);
the interpreter prints nothing and exits 0. -/
def envFull : Toolchain :=
  { spawn := fun _ fs => (fs.write (llPath stA tcA) "ir-text").write
      (bcPath stA tcA) "bc-text",
    lli := fun _ _ => ("", 0) }

/-- Tester-state fixture over the two test cases `[tcA, tcB]` (batch
maximum source-path width 7 = `"bb/b.sy".length`). -/
def stAB : Tester :=
  { java_path := "java", compiler_path := "cbias.jar", testcases := [tcA, tcB],
    root_dir := "gen/testgen-0101-000000",
    ir_dir := "gen/testgen-0101-000000/ir",
    out_dir := "gen/testgen-0101-000000/out",
    res_path := "gen/testgen-0101-000000/result.log",
    max_path_width := 7 }

/-! Helper lemmas about the embedding. -/

theorem strAppend_assoc (a b c : String) : a ++ b ++ c = a ++ (b ++ c) := by
  cases a; cases b; cases c
  simp [String.congr_append]

theorem data_of_append (a b : String) : (a ++ b).data = a.data ++ b.data := by
  rw [String.congr_append]

theorem FS.read_write_self (fs : FS) (p c : String) :
    (fs.write p c).read p = some c := by
  simp [FS.write, FS.read]

theorem FS.read_write_ne (fs : FS) (p q c : String) (h : p ≠ q) :
    (fs.write p c).read q = fs.read q := by
  simp [FS.write, FS.read, h]

theorem FS.read_append_self (fs : FS) (p s : String) :
    (fs.append p s).read p = some (((fs.read p).getD "") ++ s) := by
  simp [FS.append, FS.read_write_self]

theorem FS.read_append_ne (fs : FS) (p q s : String) (h : p ≠ q) :
    (fs.append p s).read q = fs.read q := by
  simp [FS.append, FS.read_write_ne _ _ _ _ h]

theorem echoStep_read_true (r : Int) (p : String) (fs : FS) (pre : String)
    (h : fs.read p = some pre) :
    (echoStep true r p fs).read p =
      some (pre ++ (if 0 < pre.length then "\n" else "") ++ (toString r ++ "\n")) := by
  by_cases hl : 0 < pre.length
  · simp [echoStep, FS.read_append_self, h, hl]
  · simp [echoStep, FS.read_append_self, h, hl]

theorem echoStep_read_other (e : Bool) (r : Int) (p q : String) (fs : FS)
    (h : p ≠ q) :
    (echoStep e r p fs).read q = fs.read q := by
  cases e with
  | false => rfl
  | true =>
    by_cases hl : 0 < ((fs.read p).getD "").length
    · simp [echoStep, hl, FS.read_append_ne _ _ _ _ h]
    · simp [echoStep, hl, FS.read_append_ne _ _ _ _ h]

theorem read_fs0 (fs : FS) (out_path : String) :
    (if fs.existsF out_path then fs else fs.write out_path "").read out_path
      = some ((fs.read out_path).getD "") := by
  by_cases he : fs.existsF out_path
  · simp only [he, if_true]
    cases hr : fs.read out_path with
    | none => simp [FS.existsF, hr] at he
    | some c => simp [hr]
  · have : fs.read out_path = none := by
      cases hr : fs.read out_path with
      | none => rfl
      | some c => simp [FS.existsF, hr] at he
    simp [he, FS.read_write_self, this]

theorem run_ir_none_read (env : Toolchain) (bc out_path : String)
    (echo_ret : Bool) (fs : FS) :
    ∃ fsOut, run_ir env bc out_path none echo_ret fs =
        .ok (fsOut, [Event.interpProc ("lli " ++ bc) none true]) ∧
      fsOut.read out_path =
        some ((fs.read out_path).getD "" ++ (env.lli ("lli " ++ bc) none).1 ++
          (if echo_ret then
            (if 0 < ((fs.read out_path).getD ""
                      ++ (env.lli ("lli " ++ bc) none).1).length
             then "\n" else "")
              ++ (toString (env.lli ("lli " ++ bc) none).2 ++ "\n")
           else "")) := by
  refine ⟨_, rfl, ?_⟩
  have hread : ((if fs.existsF out_path then fs else fs.write out_path "").append
      out_path (env.lli ("lli " ++ bc) none).1).read out_path
      = some ((fs.read out_path).getD "" ++ (env.lli ("lli " ++ bc) none).1) := by
    rw [FS.read_append_self, read_fs0]
    rfl
  cases echo_ret with
  | false => simpa [echoStep] using hread
  | true =>
    rw [echoStep_read_true _ _ _ _ hread]
    simp [strAppend_assoc]

theorem run_ir_some_read (env : Toolchain) (bc out_path p : String)
    (echo_ret : Bool) (fs : FS) (c : String) (hin : fs.read p = some c) :
    ∃ fsOut, run_ir env bc out_path (some p) echo_ret fs =
        .ok (fsOut, [Event.interpProc ("lli " ++ bc) (some p) true]) ∧
      fsOut.read out_path =
        some ((fs.read out_path).getD "" ++ (env.lli ("lli " ++ bc) (some c)).1 ++
          (if echo_ret then
            (if 0 < ((fs.read out_path).getD ""
                      ++ (env.lli ("lli " ++ bc) (some c)).1).length
             then "\n" else "")
              ++ (toString (env.lli ("lli " ++ bc) (some c)).2 ++ "\n")
           else "")) := by
  have hfs0p : (if fs.existsF out_path then fs else fs.write out_path "").read p
      = some c := by
    by_cases he : fs.existsF out_path
    · simpa [he] using hin
    · rcases eq_or_ne out_path p with rfl | hne
      · exact absurd (by simp [FS.existsF, hin]) he
      · simpa [he, FS.read_write_ne _ _ _ _ hne] using hin
  have hread : ((if fs.existsF out_path then fs else fs.write out_path "").append
      out_path (env.lli ("lli " ++ bc) (some c)).1).read out_path
      = some ((fs.read out_path).getD "" ++ (env.lli ("lli " ++ bc) (some c)).1) := by
    rw [FS.read_append_self, read_fs0]
    rfl
  refine ⟨echoStep echo_ret (env.lli ("lli " ++ bc) (some c)).2 out_path
      ((if fs.existsF out_path then fs
        else fs.write out_path "").append out_path
          (env.lli ("lli " ++ bc) (some c)).1), ?_, ?_⟩
  · unfold run_ir
    dsimp only
    rw [hfs0p]
  · cases echo_ret with
    | false => simpa [echoStep] using hread
    | true =>
      rw [echoStep_read_true _ _ _ _ hread]
      simp [strAppend_assoc]

theorem gen_ir_compile_fail (env : Toolchain) (st : Tester) (tcase : TestCase)
    (fs : FS)
    (h : (env.spawn (cmdCompile st tcase) fs).existsF (llPath st tcase) = false) :
    gen_ir env st tcase fs =
      (none, env.spawn (cmdCompile st tcase) fs,
       [.spawnProc (cmdCompile st tcase)]) := by
  simp [gen_ir, h]

theorem gen_ir_link_fail (env : Toolchain) (st : Tester) (tcase : TestCase)
    (fs : FS)
    (h1 : (env.spawn (cmdCompile st tcase) fs).existsF (llPath st tcase) = true)
    (h2 : (env.spawn (cmdLink st tcase) (env.spawn (cmdCompile st tcase) fs)).existsF
            (bcPath st tcase) = false) :
    gen_ir env st tcase fs =
      (none, env.spawn (cmdLink st tcase) (env.spawn (cmdCompile st tcase) fs),
       [.spawnProc (cmdCompile st tcase), .spawnProc (cmdLink st tcase)]) := by
  simp [gen_ir, h1, h2]

theorem gen_ir_success (env : Toolchain) (st : Tester) (tcase : TestCase)
    (fs : FS)
    (h1 : (env.spawn (cmdCompile st tcase) fs).existsF (llPath st tcase) = true)
    (h2 : (env.spawn (cmdLink st tcase) (env.spawn (cmdCompile st tcase) fs)).existsF
            (bcPath st tcase) = true) :
    gen_ir env st tcase fs =
      (some (bcPath st tcase),
       env.spawn (cmdLink st tcase) (env.spawn (cmdCompile st tcase) fs),
       [.spawnProc (cmdCompile st tcase), .spawnProc (cmdLink st tcase)]) := by
  simp [gen_ir, h1, h2]

theorem processCase_of_gen_ir_none (env : Toolchain) (st : Tester)
    (echo_ret : Bool) (tcase : TestCase) (fs fs1 : FS) (ev : List Event)
    (h : gen_ir env st tcase fs = (none, fs1, ev)) :
    processCase env st echo_ret tcase fs =
      .ok (fs1, { tcase := tcase, verdict := .CompilationError, events := ev }) := by
  simp [processCase, h]

theorem processCase_of_compare (env : Toolchain) (st : Tester)
    (echo_ret : Bool) (tcase : TestCase) (fs fs1 fs2 : FS) (bc : String)
    (ev1 ev2 : List Event) (c1 c2 : String)
    (hg : gen_ir env st tcase fs = (some bc, fs1, ev1))
    (hr : run_ir env bc (outPath st tcase) tcase.in_path echo_ret fs1 = .ok (fs2, ev2))
    (h1 : fs2.read (outPath st tcase) = some c1)
    (h2 : fs2.read tcase.std_out_path = some c2) :
    processCase env st echo_ret tcase fs =
      .ok (fs2,
        { tcase := tcase,
          verdict := if c1 = c2 then .Accepted else .WrongAnswer,
          events := ev1 ++ ev2 ++ [.cmpFiles (outPath st tcase) tcase.std_out_path] }) := by
  simp [processCase, hg, hr, matchFiles, h1, h2]

theorem run_ir_read_other (env : Toolchain) (bc out_path : String)
    (in_path : Option String) (echo_ret : Bool) (fs fsOut : FS)
    (ev : List Event) (q : String) (hq : out_path ≠ q)
    (h : run_ir env bc out_path in_path echo_ret fs = .ok (fsOut, ev)) :
    fsOut.read q = fs.read q := by
  have hfs0 : (if fs.existsF out_path then fs else fs.write out_path "").read q
      = fs.read q := by
    by_cases he : fs.existsF out_path
    · simp [he]
    · simp [he, FS.read_write_ne _ _ _ _ hq]
  cases in_path with
  | none =>
    unfold run_ir at h
    dsimp only at h
    simp only [Except.ok.injEq, Prod.mk.injEq] at h
    obtain ⟨hfs, -⟩ := h
    subst hfs
    rw [echoStep_read_other _ _ _ _ _ hq, FS.read_append_ne _ _ _ _ hq, hfs0]
  | some p =>
    unfold run_ir at h
    dsimp only at h
    cases hrp : (if fs.existsF out_path then fs else fs.write out_path "").read p with
    | none => rw [hrp] at h; cases h
    | some ic =>
      rw [hrp] at h
      simp only [Except.ok.injEq, Prod.mk.injEq] at h
      obtain ⟨hfs, -⟩ := h
      subst hfs
      rw [echoStep_read_other _ _ _ _ _ hq, FS.read_append_ne _ _ _ _ hq, hfs0]

theorem gen_ir_read_other (env : Toolchain) (st : Tester) (tcase : TestCase)
    (fs : FS) (q : String)
    (Hspawn : ∀ cmd fs1, (env.spawn cmd fs1).read q = fs1.read q) :
    (gen_ir env st tcase fs).2.1.read q = fs.read q := by
  unfold gen_ir
  dsimp only
  split
  · simp [Hspawn]
  · split
    · simp [Hspawn]
    · simp [Hspawn]

theorem processCase_read_other (env : Toolchain) (st : Tester) (echo_ret : Bool)
    (tcase : TestCase) (fs fs1 : FS) (r : CaseResult) (q : String)
    (Hspawn : ∀ cmd fs1, (env.spawn cmd fs1).read q = fs1.read q)
    (hout : outPath st tcase ≠ q)
    (h : processCase env st echo_ret tcase fs = .ok (fs1, r)) :
    fs1.read q = fs.read q := by
  have hgen := gen_ir_read_other env st tcase fs q Hspawn
  unfold processCase at h
  rcases hg : gen_ir env st tcase fs with ⟨bc?, fsg, evg⟩
  rw [hg] at hgen
  cases bc? with
  | none =>
    rw [hg] at h
    simp only [Except.ok.injEq, Prod.mk.injEq] at h
    obtain ⟨hfs, -⟩ := h
    subst hfs
    exact hgen
  | some bc =>
    rw [hg] at h
    dsimp only at h
    cases hr : run_ir env bc (outPath st tcase) tcase.in_path echo_ret fsg with
    | error e => rw [hr] at h; cases h
    | ok out =>
      rcases out with ⟨fs2, ev2⟩
      rw [hr] at h
      dsimp only at h
      cases hm : matchFiles fs2 (outPath st tcase) tcase.std_out_path with
      | error e => rw [hm] at h; cases h
      | ok b =>
        rw [hm] at h
        simp only [Except.ok.injEq, Prod.mk.injEq] at h
        obtain ⟨hfs, -⟩ := h
        subst hfs
        rw [run_ir_read_other _ _ _ _ _ _ _ _ _ hout hr, hgen]

theorem str_empty_append (s : String) : "" ++ s = s := by
  cases s
  rw [String.congr_append]
  rfl

theorem strAppend_left_cancel (a b c : String) (h : a ++ b = a ++ c) : b = c := by
  have hd := congrArg String.data h
  rw [data_of_append, data_of_append] at hd
  have hbc := List.append_cancel_left hd
  cases b
  cases c
  exact congrArg String.mk hbc

theorem processCase_tcase (env : Toolchain) (st : Tester) (echo_ret : Bool)
    (tcase : TestCase) (fs fs1 : FS) (r : CaseResult)
    (h : processCase env st echo_ret tcase fs = .ok (fs1, r)) :
    r.tcase = tcase := by
  unfold processCase at h
  rcases hg : gen_ir env st tcase fs with ⟨bc?, fsg, evg⟩
  rw [hg] at h
  cases bc? with
  | none =>
    simp only [Except.ok.injEq, Prod.mk.injEq] at h
    obtain ⟨-, hr⟩ := h
    subst hr
    rfl
  | some bc =>
    dsimp only at h
    cases hrr : run_ir env bc (outPath st tcase) tcase.in_path echo_ret fsg with
    | error e => rw [hrr] at h; cases h
    | ok out =>
      rcases out with ⟨fs2, ev2⟩
      rw [hrr] at h
      dsimp only at h
      cases hm : matchFiles fs2 (outPath st tcase) tcase.std_out_path with
      | error e => rw [hm] at h; cases h
      | ok b =>
        rw [hm] at h
        simp only [Except.ok.injEq, Prod.mk.injEq] at h
        obtain ⟨-, hr⟩ := h
        subst hr
        rfl

theorem runLoop_log (env : Toolchain) (st : Tester) (echo_ret : Bool)
    (Hspawn : ∀ cmd fs1, (env.spawn cmd fs1).read st.res_path = fs1.read st.res_path) :
    ∀ (cases : List TestCase), (∀ tc ∈ cases, outPath st tc ≠ st.res_path) →
    ∀ (fs fsOut : FS) (rs : List CaseResult) (c : String),
      fs.read st.res_path = some c →
      runLoop env st echo_ret cases fs = .ok (fsOut, rs) →
      rs.map CaseResult.tcase = cases ∧
        fsOut.read st.res_path =
          some (c ++ strConcat (rs.map (fun r => logLine st r.tcase r.verdict)))
  | [], _, fs, fsOut, rs, c, hc, h => by
    simp only [runLoop, Except.ok.injEq, Prod.mk.injEq] at h
    obtain ⟨h1, h2⟩ := h
    subst h1
    subst h2
    simp [strConcat, hc]
  | tcase :: rest, Hout, fs, fsOut, rs, c, hc, h => by
    unfold runLoop at h
    cases hpc : processCase env st echo_ret tcase fs with
    | error e => rw [hpc] at h; cases h
    | ok out =>
      rcases out with ⟨fs1, r⟩
      rw [hpc] at h
      dsimp only at h
      cases hrl : runLoop env st echo_ret rest
          (fs1.append st.res_path (logLine st tcase r.verdict)) with
      | error e => rw [hrl] at h; cases h
      | ok out2 =>
        rcases out2 with ⟨fs2, rs2⟩
        rw [hrl] at h
        dsimp only at h
        simp only [Except.ok.injEq, Prod.mk.injEq] at h
        obtain ⟨hf, hr⟩ := h
        subst hf
        subst hr
        have hres1 : fs1.read st.res_path = some c :=
          (processCase_read_other env st echo_ret tcase fs fs1 r st.res_path
            Hspawn (Hout tcase (by simp)) hpc).trans hc
        have hres2 : (fs1.append st.res_path (logLine st tcase r.verdict)).read
            st.res_path = some (c ++ logLine st tcase r.verdict) := by
          rw [FS.read_append_self, hres1]
          rfl
        have ih := runLoop_log env st echo_ret Hspawn rest
          (fun tc htc => Hout tc (by simp [htc])) _ fs2 rs2 _ hres2 hrl
        obtain ⟨ih1, ih2⟩ := ih
        have hcase : r.tcase = tcase :=
          processCase_tcase env st echo_ret tcase fs fs1 r hpc
        constructor
        · simp [ih1, hcase]
        · rw [ih2]
          simp [List.map_cons, strConcat, hcase, strAppend_assoc]

theorem foldl_dv_split (l : List Char) (a : Nat) :
    List.foldl (fun x c => x * 10 + dv c) a l
      = a * 10 ^ l.length + List.foldl (fun x c => x * 10 + dv c) 0 l := by
  induction l generalizing a with
  | nil => simp
  | cons c l ih =>
    simp only [List.foldl_cons, List.length_cons]
    rw [ih (a * 10 + dv c), ih (0 * 10 + dv c)]
    ring

theorem pad2_map_dv : ∀ n, n < 100 → (pad2 n).data.map dv = [n / 10, n % 10] := by
  decide

theorem pad2_foldl (n : Nat) (h : n < 100) (a : Nat) :
    List.foldl (fun x c => x * 10 + dv c) a (pad2 n).data = a * 100 + n := by
  have h2 : List.foldl (fun x c => x * 10 + dv c) a (pad2 n).data
      = List.foldl (fun x d => x * 10 + d) a ((pad2 n).data.map dv) := by
    rw [List.foldl_map]
  rw [h2, pad2_map_dv n h]
  simp only [List.foldl_cons, List.foldl_nil]
  omega

theorem nameCode_runDirName (t : Timestamp)
    (h1 : t.mon < 100) (h2 : t.day < 100) (h3 : t.hour < 100)
    (h4 : t.minute < 100) (h5 : t.sec < 100) :
    nameCode (runDirName t) =
      ((((83785320 * 100 + t.mon) * 100 + t.day) * 10 * 100 + t.hour) * 100
        + t.minute) * 100 + t.sec := by
  unfold nameCode runDirName stamp
  simp only [data_of_append, List.foldl_append]
  rw [show List.foldl (fun x c => x * 10 + dv c) 0 "testgen-".data = 83785320 from by decide]
  rw [pad2_foldl _ h1, pad2_foldl _ h2]
  rw [foldl_dv_split "-".data]
  rw [show ("-".data.length) = 1 from by decide]
  rw [show List.foldl (fun x c => x * 10 + dv c) 0 "-".data = 0 from by decide]
  rw [pad2_foldl _ h3, pad2_foldl _ h4, pad2_foldl _ h5]
  ring

theorem initTester_root_dir (compiler_path : String) (tcs : List TestCase)
    (java_path gen_dir : String) (now : Timestamp) (st : Tester)
    (h : (initTester compiler_path tcs java_path gen_dir now).1 = .ok st) :
    st.root_dir = gen_dir ++ "/" ++ runDirName now := by
  unfold initTester at h
  cases hm : pyMax (tcs.map (fun tc => tc.sy_path.length)) with
  | none => rw [hm] at h; cases h
  | some w =>
    rw [hm] at h
    simp only [Except.ok.injEq] at h
    subst h
    rfl

end FrontendTester

namespace FrontendTester

/-- Claim C1: for a test case whose compile stage produces no `.ll` artifact
on disk, `gen_ir` returns `None`, the recorded verdict is `CompilationError`,
and neither the interpreter (`run_ir`) nor the comparison (`match`) is
invoked for that case. -/
theorem C1_compile_failure_short_circuits (env : Toolchain) (st : Tester)
    (echo_ret : Bool) (tcase : TestCase) (fs : FS)
    (h : (env.spawn (cmdCompile st tcase) fs).existsF (llPath st tcase) = false) :
    ∃ fs1 r,
      gen_ir env st tcase fs = (none, fs1, r.events) ∧
      processCase env st echo_ret tcase fs = .ok (fs1, r) ∧
      r.verdict = .CompilationError ∧
      r.events.all (fun e => !e.isInterp && !e.isCmp) = true := by
  have hg := gen_ir_compile_fail env st tcase fs h
  exact ⟨env.spawn (cmdCompile st tcase) fs,
    { tcase := tcase, verdict := .CompilationError,
      events := [.spawnProc (cmdCompile st tcase)] },
    hg, processCase_of_gen_ir_none env st echo_ret tcase fs _ _ hg, rfl, rfl⟩

/-- Witness for C1 at a concrete toolchain whose compiler writes nothing. -/
theorem C1_witness :
    ∃ fs1 r,
      gen_ir envNull stA tcA [] = (none, fs1, r.events) ∧
      processCase envNull stA true tcA [] = .ok (fs1, r) ∧
      r.verdict = .CompilationError ∧
      r.events.all (fun e => !e.isInterp && !e.isCmp) = true :=
  C1_compile_failure_short_circuits envNull stA true tcA [] (by decide)

/-- Claim C4: for a test case whose compile stage succeeds but whose link
stage produces no `.bc` artifact on disk, `gen_ir` returns `None` and the
recorded verdict is the same `CompilationError` constructor used for
compile-stage failure. -/
theorem C4_link_failure_is_compilation_error (env : Toolchain) (st : Tester)
    (echo_ret : Bool) (tcase : TestCase) (fs : FS)
    (h1 : (env.spawn (cmdCompile st tcase) fs).existsF (llPath st tcase) = true)
    (h2 : (env.spawn (cmdLink st tcase)
            (env.spawn (cmdCompile st tcase) fs)).existsF (bcPath st tcase) = false) :
    ∃ fs2 r,
      gen_ir env st tcase fs = (none, fs2, r.events) ∧
      processCase env st echo_ret tcase fs = .ok (fs2, r) ∧
      r.verdict = .CompilationError := by
  have hg := gen_ir_link_fail env st tcase fs h1 h2
  exact ⟨env.spawn (cmdLink st tcase) (env.spawn (cmdCompile st tcase) fs),
    { tcase := tcase, verdict := .CompilationError,
      events := [.spawnProc (cmdCompile st tcase), .spawnProc (cmdLink st tcase)] },
    hg, processCase_of_gen_ir_none env st echo_ret tcase fs _ _ hg, rfl⟩

/-- Witness for C4 at a concrete toolchain that creates the `.ll` artifact
but never the `.bc` artifact. -/
theorem C4_witness :
    ∃ fs2 r,
      gen_ir envLinkFail stA tcA [] = (none, fs2, r.events) ∧
      processCase envLinkFail stA true tcA [] = .ok (fs2, r) ∧
      r.verdict = .CompilationError :=
  C4_link_failure_is_compilation_error envLinkFail stA true tcA []
    (by decide) (by decide)

/-- Claim C3: for a test case that reaches the compare stage, the verdict is
`Accepted` iff the capture file and the expected-answer file have identical
contents, and `WrongAnswer` otherwise. -/
theorem C3_verdict_iff_exact_match (env : Toolchain) (st : Tester)
    (echo_ret : Bool) (tcase : TestCase) (fs fs1 fs2 : FS) (bc : String)
    (ev1 ev2 : List Event) (c1 c2 : String)
    (hg : gen_ir env st tcase fs = (some bc, fs1, ev1))
    (hr : run_ir env bc (outPath st tcase) tcase.in_path echo_ret fs1 = .ok (fs2, ev2))
    (h1 : fs2.read (outPath st tcase) = some c1)
    (h2 : fs2.read tcase.std_out_path = some c2) :
    ∃ r, processCase env st echo_ret tcase fs = .ok (fs2, r) ∧
      (r.verdict = .Accepted ↔ c1 = c2) ∧
      (r.verdict = .WrongAnswer ↔ c1 ≠ c2) := by
  refine ⟨_, processCase_of_compare env st echo_ret tcase fs fs1 fs2 bc
    ev1 ev2 c1 c2 hg hr h1 h2, ?_, ?_⟩
  · by_cases hc : c1 = c2 <;> simp [hc]
  · by_cases hc : c1 = c2 <;> simp [hc]

/-- Witness for C3: a full concrete run where capture equals expectation,
yielding `Accepted`. -/
theorem C3_witness :
    ∃ fs2 r, processCase envFull stA true tcA [("a_std.out", "0\n")] = .ok (fs2, r) ∧
      (r.verdict = .Accepted ↔ ("0\n" : String) = "0\n") ∧
      (r.verdict = .WrongAnswer ↔ ("0\n" : String) ≠ "0\n") := by
  obtain ⟨r, h1, h2, h3⟩ := C3_verdict_iff_exact_match envFull stA true tcA
    [("a_std.out", "0\n")] _ _ _ _ _ "0\n" "0\n" rfl rfl (by decide) (by decide)
  exact ⟨_, r, h1, h2, h3⟩

/-- Claim C9: `run_ir` runs the interpreter with the input file wired as
standard input when an input path is supplied, and with no standard input
when it is absent; in both cases standard error is discarded (the
`stderrDevnull` flag of the recorded invocation). -/
theorem C9_stdin_wiring (env : Toolchain) (bc out_path : String)
    (echo_ret : Bool) (fs : FS) :
    (∃ fsOut, run_ir env bc out_path none echo_ret fs =
        .ok (fsOut, [Event.interpProc ("lli " ++ bc) none true])) ∧
    (∀ p c, fs.read p = some c →
      ∃ fsOut, run_ir env bc out_path (some p) echo_ret fs =
        .ok (fsOut, [Event.interpProc ("lli " ++ bc) (some p) true])) := by
  constructor
  · obtain ⟨fsOut, h1, -⟩ := run_ir_none_read env bc out_path echo_ret fs
    exact ⟨fsOut, h1⟩
  · intro p c hp
    obtain ⟨fsOut, h1, -⟩ := run_ir_some_read env bc out_path p echo_ret fs c hp
    exact ⟨fsOut, h1⟩

/-- Witness for C9 with a concrete input file present. -/
theorem C9_witness :
    (∃ fsOut, run_ir envHi "a.bc" "cap" none true [("b.in", "x")] =
        .ok (fsOut, [Event.interpProc ("lli " ++ "a.bc") none true])) ∧
    (∃ fsOut, run_ir envHi "a.bc" "cap" (some "b.in") true [("b.in", "x")] =
        .ok (fsOut, [Event.interpProc ("lli " ++ "a.bc") (some "b.in") true])) := by
  obtain ⟨h1, h2⟩ := C9_stdin_wiring envHi "a.bc" "cap" true [("b.in", "x")]
  exact ⟨h1, h2 "b.in" "x" rfl⟩

/-- Claim C10: constructing the tester with an empty test-case list raises
the `max`-of-empty-sequence error before any `os.makedirs` call, so no
directory is created. -/
theorem C10_empty_batch_no_side_effect (compiler_path java_path gen_dir : String)
    (now : Timestamp) :
    initTester compiler_path [] java_path gen_dir now = (.error .valueError, []) :=
  rfl

end FrontendTester

namespace FrontendTester

/-- Claim C2: with exit-code echoing enabled, after the interpreter
completes `run_ir` appends a newline separator iff the capture file is then
non-empty, followed by the decimal exit code and a newline. -/
theorem C2_exit_code_echo (env : Toolchain) (bc out_path : String) (fs : FS)
    (o : String) (r : Int)
    (h : env.lli ("lli " ++ bc) none = (o, r)) :
    ∃ fsOut, run_ir env bc out_path none true fs =
        .ok (fsOut, [Event.interpProc ("lli " ++ bc) none true]) ∧
      fsOut.read out_path =
        some ((fs.read out_path).getD "" ++ o ++
          (if 0 < ((fs.read out_path).getD "" ++ o).length then "\n" else "")
          ++ (toString r ++ "\n")) := by
  obtain ⟨fsOut, h1, h2⟩ := run_ir_none_read env bc out_path true fs
  refine ⟨fsOut, h1, ?_⟩
  rw [h2, h]
  simp [strAppend_assoc]

/-- Witness for C2: interpreter output "hi" with exit code 0 yields capture
"hi\n0\n"; empty output with exit code 1 yields exactly "1\n". -/
theorem C2_witness :
    (∃ fsOut, run_ir envHi "a.bc" "cap" none true [] =
        .ok (fsOut, [Event.interpProc ("lli " ++ "a.bc") none true]) ∧
      fsOut.read "cap" = some "hi\n0\n") ∧
    (∃ fsOut, run_ir envExit1 "a.bc" "cap" none true [] =
        .ok (fsOut, [Event.interpProc ("lli " ++ "a.bc") none true]) ∧
      fsOut.read "cap" = some "1\n") := by
  constructor
  · obtain ⟨fsOut, h1, h2⟩ := C2_exit_code_echo envHi "a.bc" "cap" [] "hi" 0 rfl
    exact ⟨fsOut, h1, h2.trans (by decide)⟩
  · obtain ⟨fsOut, h1, h2⟩ := C2_exit_code_echo envExit1 "a.bc" "cap" [] "" 1 rfl
    exact ⟨fsOut, h1, h2.trans (by decide)⟩

/-- Claim C8: `run_ir` opens the capture file in append mode: pre-existing
content survives as a prefix of the final content, and the exit-code echo's
non-emptiness check observes the pre-existing content, so a separator
newline is written even when the interpreter produced no output. -/
theorem C8_append_never_truncates (env : Toolchain) (bc out_path : String)
    (in_path : Option String) (echo_ret : Bool) (fs fsOut : FS)
    (ev : List Event) (pre : String)
    (hpre : fs.read out_path = some pre)
    (hrun : run_ir env bc out_path in_path echo_ret fs = .ok (fsOut, ev)) :
    (∃ s, fsOut.read out_path = some (pre ++ s)) ∧
    (echo_ret = true →
      (env.lli ("lli " ++ bc) (in_path.bind fs.read)).1 = "" →
      0 < pre.length →
      fsOut.read out_path =
        some (pre ++ ("\n" ++
          (toString (env.lli ("lli " ++ bc) (in_path.bind fs.read)).2 ++ "\n")))) := by
  have hex : fs.existsF out_path = true := by simp [FS.existsF, hpre]
  cases in_path with
  | none =>
    obtain ⟨fsOut2, hrun2, hread⟩ := run_ir_none_read env bc out_path echo_ret fs
    rw [hrun2] at hrun
    simp only [Except.ok.injEq, Prod.mk.injEq] at hrun
    obtain ⟨hfs, -⟩ := hrun
    subst hfs
    simp only [hpre, Option.getD_some] at hread
    constructor
    · exact ⟨_, hread.trans (by rw [strAppend_assoc])⟩
    · intro he ho hl
      subst he
      dsimp only [Option.bind] at ho ⊢
      rw [hread, ho]
      simp [String.append_empty, hl, strAppend_assoc]
  | some p =>
    cases hp : fs.read p with
    | none =>
      exfalso
      unfold run_ir at hrun
      dsimp only at hrun
      rw [hex] at hrun
      simp only [if_true] at hrun
      rw [hp] at hrun
      cases hrun
    | some c =>
      obtain ⟨fsOut2, hrun2, hread⟩ := run_ir_some_read env bc out_path p echo_ret fs c hp
      rw [hrun2] at hrun
      simp only [Except.ok.injEq, Prod.mk.injEq] at hrun
      obtain ⟨hfs, -⟩ := hrun
      subst hfs
      simp only [hpre, Option.getD_some] at hread
      constructor
      · exact ⟨_, hread.trans (by rw [strAppend_assoc])⟩
      · intro he ho hl
        subst he
        dsimp only [Option.bind] at ho ⊢
        rw [hp] at ho ⊢
        rw [hread, ho]
        simp [String.append_empty, hl, strAppend_assoc]

end FrontendTester

namespace FrontendTester

/-- Witness for C8: capture file pre-loaded with "OLD", interpreter output
empty with exit code 1; "OLD" survives as a prefix and the separator newline
is written because of the pre-existing content alone. -/
theorem C8_witness : ∃ fsOut ev,
    run_ir envExit1 "a.bc" "cap" none true [("cap", "OLD")] = .ok (fsOut, ev) ∧
    (∃ s, fsOut.read "cap" = some ("OLD" ++ s)) ∧
    fsOut.read "cap" = some "OLD\n1\n" := by
  obtain ⟨h1, h2⟩ := C8_append_never_truncates envExit1 "a.bc" "cap" none true
    [("cap", "OLD")] _ _ "OLD" rfl rfl
  refine ⟨_, _, rfl, h1, ?_⟩
  exact (h2 rfl rfl (by decide)).trans (by decide)

/-- Claim C6: `run` writes exactly one log line per test case, and the
result log holds the lines in exactly the order the cases were supplied. -/
theorem C6_one_line_per_case_in_order (env : Toolchain) (st : Tester)
    (echo_ret : Bool) (fs fsOut : FS) (rs : List CaseResult)
    (Hspawn : ∀ cmd fs1, (env.spawn cmd fs1).read st.res_path = fs1.read st.res_path)
    (Hout : ∀ tc ∈ st.testcases, outPath st tc ≠ st.res_path)
    (h : runAll env st echo_ret fs = .ok (fsOut, rs)) :
    rs.map CaseResult.tcase = st.testcases ∧
      fsOut.read st.res_path =
        some (strConcat (rs.map (fun r => logLine st r.tcase r.verdict))) := by
  have h0 : (fs.write st.res_path "").read st.res_path = some "" :=
    FS.read_write_self fs st.res_path ""
  obtain ⟨h1, h2⟩ := runLoop_log env st echo_ret Hspawn st.testcases Hout
    _ fsOut rs "" h0 h
  refine ⟨h1, ?_⟩
  rw [h2, String.empty_append]

/-- Witness for C6: a two-case batch logged in supply order. -/
theorem C6_witness : ∃ fsOut rs,
    runAll envNull stAB true [] = .ok (fsOut, rs) ∧
    rs.map CaseResult.tcase = stAB.testcases ∧
    fsOut.read stAB.res_path =
      some "a.sy    \tCompilation Error\nbb/b.sy \tCompilation Error\n" := by
  obtain ⟨h1, h2⟩ := C6_one_line_per_case_in_order envNull stAB true [] _ _
    (fun _ _ => rfl) (by decide) rfl
  exact ⟨_, _, rfl, h1, h2.trans (by decide)⟩

/-- Counterexample to C5 as stated: the written line has a space between the
padded source path and the tab, so it differs from
`<padded><TAB><status>\n`. -/
theorem C5_counterexample : ∃ fsOut rs,
    runAll envNull stA true [] = .ok (fsOut, rs) ∧
    fsOut.read stA.res_path = some "a.sy \tCompilation Error\n" ∧
    "a.sy \tCompilation Error\n" ≠
      ljust "a.sy" stA.max_path_width ++ "\t" ++ "Compilation Error" ++ "\n" := by
  refine ⟨_, _, rfl, by decide, by decide⟩

/-- Claim C5 (amended): each log line is the source path left-justified to
the batch maximum width, then one space, one tab, the verdict label (one of
the three exact strings, "Accecpted" spelled as in the source), and a
newline. -/
theorem C5_log_line_format (env : Toolchain) (st : Tester)
    (echo_ret : Bool) (fs fsOut : FS) (rs : List CaseResult)
    (Hspawn : ∀ cmd fs1, (env.spawn cmd fs1).read st.res_path = fs1.read st.res_path)
    (Hout : ∀ tc ∈ st.testcases, outPath st tc ≠ st.res_path)
    (h : runAll env st echo_ret fs = .ok (fsOut, rs)) :
    fsOut.read st.res_path =
      some (strConcat (rs.map (fun r =>
        ljust r.tcase.sy_path st.max_path_width ++ " \t"
          ++ verdictLabel r.verdict ++ "\n"))) ∧
    ∀ r ∈ rs, verdictLabel r.verdict = "Compilation Error" ∨
      verdictLabel r.verdict = "Accecpted" ∨
      verdictLabel r.verdict = "Wrong Answer" := by
  have h0 : (fs.write st.res_path "").read st.res_path = some "" :=
    FS.read_write_self fs st.res_path ""
  obtain ⟨-, h2⟩ := runLoop_log env st echo_ret Hspawn st.testcases Hout
    _ fsOut rs "" h0 h
  constructor
  · rw [h2, String.empty_append]
    rfl
  · intro r hr
    cases r.verdict <;> simp [verdictLabel]

/-- Witness for the amended C5 on a concrete single-case batch. -/
theorem C5_witness : ∃ fsOut rs,
    runAll envNull stA true [] = .ok (fsOut, rs) ∧
    fsOut.read stA.res_path =
      some (strConcat (rs.map (fun r =>
        ljust r.tcase.sy_path stA.max_path_width ++ " \t"
          ++ verdictLabel r.verdict ++ "\n"))) ∧
    ∀ r ∈ rs, verdictLabel r.verdict = "Compilation Error" ∨
      verdictLabel r.verdict = "Accecpted" ∨
      verdictLabel r.verdict = "Wrong Answer" := by
  obtain ⟨h1, h2⟩ := C5_log_line_format envNull stA true [] _ _
    (fun _ _ => rfl) (by decide) rfl
  exact ⟨_, _, rfl, h1, h2⟩

/-- Counterexample to C7 as stated: two tester instances constructed within
the same second (same `strftime` output) receive identical run-directory
names, so names are not always distinct within one process. -/
theorem C7_counterexample : ∃ st1 st2,
    (initTester "cbias.jar" [tcA] "java" "gen" ⟨11, 23, 10, 30, 45⟩).1 = .ok st1 ∧
    (initTester "other.jar" [tcB] "java" "gen" ⟨11, 23, 10, 30, 45⟩).1 = .ok st2 ∧
    st1.root_dir = st2.root_dir :=
  ⟨_, _, rfl, rfl, rfl⟩

/-- Claim C7 (amended): two tester instances constructed over the same
generation directory at distinct valid second-level timestamps receive
distinct run directories. -/
theorem C7_distinct_seconds_distinct_dirs (cp1 cp2 jp1 jp2 gen_dir : String)
    (tcs1 tcs2 : List TestCase) (t1 t2 : Timestamp) (st1 st2 : Tester)
    (h1 : (initTester cp1 tcs1 jp1 gen_dir t1).1 = .ok st1)
    (h2 : (initTester cp2 tcs2 jp2 gen_dir t2).1 = .ok st2)
    (hv1 : t1.valid) (hv2 : t2.valid) (hne : t1 ≠ t2) :
    st1.root_dir ≠ st2.root_dir := by
  rw [initTester_root_dir _ _ _ _ _ _ h1, initTester_root_dir _ _ _ _ _ _ h2]
  intro heq
  have hname := strAppend_left_cancel _ _ _ heq
  obtain ⟨a1, a2, a3, a4, a5, a6, a7⟩ := hv1
  obtain ⟨b1, b2, b3, b4, b5, b6, b7⟩ := hv2
  have e := congrArg nameCode hname
  rw [nameCode_runDirName t1 (by omega) (by omega) (by omega) (by omega) (by omega),
      nameCode_runDirName t2 (by omega) (by omega) (by omega) (by omega) (by omega)] at e
  apply hne
  rcases t1 with ⟨m1, d1, hh1, mi1, s1⟩
  rcases t2 with ⟨m2, d2, hh2, mi2, s2⟩
  simp only at e a2 a4 a5 a6 a7 b2 b4 b5 b6 b7
  have hfields : m1 = m2 ∧ d1 = d2 ∧ hh1 = hh2 ∧ mi1 = mi2 ∧ s1 = s2 := by omega
  obtain ⟨rfl, rfl, rfl, rfl, rfl⟩ := hfields
  rfl

/-- Witness for the amended C7: timestamps one second apart give distinct
run directories. -/
theorem C7_witness : ∃ st1 st2,
    (initTester "cbias.jar" [tcA] "java" "gen" ⟨1, 2, 3, 4, 5⟩).1 = .ok st1 ∧
    (initTester "cbias.jar" [tcA] "java" "gen" ⟨1, 2, 3, 4, 6⟩).1 = .ok st2 ∧
    st1.root_dir ≠ st2.root_dir := by
  refine ⟨_, _, rfl, rfl, ?_⟩
  exact C7_distinct_seconds_distinct_dirs "cbias.jar" "cbias.jar" "java" "java"
    "gen" [tcA] [tcA] ⟨1, 2, 3, 4, 5⟩ ⟨1, 2, 3, 4, 6⟩ _ _ rfl rfl
    (by refine ⟨?_, ?_, ?_, ?_, ?_, ?_, ?_⟩ <;> decide)
    (by refine ⟨?_, ?_, ?_, ?_, ?_, ?_, ?_⟩ <;> decide)
    (by decide)

end FrontendTester
